import Mathlib

/-!
Verification of `spatial-crop-yield.py` (function `filter_field_boundaries`).

The script builds two shapely polygons (`field_1`, `field_2`) from the first
two entries of `cfg['field_boundaries']`, then streams CSV rows, parses
`lat`/`long` with Python `float`, and collects rows whose point intersects
either polygon.  We embed the script shallowly:

* Python `float` values are modelled as `PyFloat` (an exact rational, or one
  of the non-finite values `inf`, `-inf`, `nan` — Python `float("inf")` and
  `float("nan")` succeed).
* a raw CSV cell is modelled by `RawVal`: either a value on which `float`
  raises `ValueError`, or one that parses to a given `PyFloat`;
* dictionary / Series lookups are `Option`-valued; a missing key raises
  `PyError.keyError`, list indexing out of range raises `PyError.indexError`;
  the script's `except ValueError` catches only the parse failures, so key
  and index errors propagate (`Except.error`);
* shapely's `Polygon(...)`/`intersects` pair is modelled, per the spec's
  containment-algorithm section, as the inclusive point-in-polygon test
  (point on an edge or vertex counts as contained, otherwise ray-crossing
  parity) over the closed vertex ring; shapely's constructor performs no
  degeneracy or finiteness validation, and a predicate on a non-finite
  point is modelled as false.
-/

/-- A Python float: finite (modelled exactly as a rational) or non-finite. -/
inductive PyFloat where
  | fin (q : ℚ)
  | inf
  | neginf
  | nan
deriving DecidableEq, Repr

/-- A raw CSV cell, classified by what Python `float()` does to it:
`notFloat` raises `ValueError`; `val v` returns the float `v`. -/
inductive RawVal where
  | notFloat
  | val (v : PyFloat)
deriving DecidableEq, Repr

/-- Python `float(x)` on a raw cell: `ValueError` (modelled as `Except.error ()`)
or the parsed float. -/
def parseFloat : RawVal → Except Unit PyFloat
  | .notFloat => .error ()
  | .val v => .ok v

/-- The finite value of a `PyFloat`, if it is finite. -/
def PyFloat.toQ? : PyFloat → Option ℚ
  | .fin q => some q
  | _ => none

/-- A planar point with exact rational coordinates. -/
structure Pt where
  x : ℚ
  y : ℚ
deriving DecidableEq, Repr

/-- A shapely polygon as built by the script: the ordered vertex ring, each
vertex a `(PyFloat, PyFloat)` pair straight from the configuration. -/
def SPolygon := List (PyFloat × PyFloat)

/-- `onSegment a b p`: `p` lies on the closed segment from `a` to `b`
(collinear and within the bounding box). -/
def onSegment (a b p : Pt) : Bool :=
  decide ((b.x - a.x) * (p.y - a.y) = (b.y - a.y) * (p.x - a.x)) &&
  decide (min a.x b.x ≤ p.x) && decide (p.x ≤ max a.x b.x) &&
  decide (min a.y b.y ≤ p.y) && decide (p.y ≤ max a.y b.y)

/-- The edges of the closed vertex ring: consecutive vertices paired up,
with the last vertex connected back to the first. -/
def ringEdges (l : List Pt) : List (Pt × Pt) := l.zip (l.rotate 1)

/-- `p` lies on the boundary of the ring `l` (on some closed edge). -/
def onBoundary (l : List Pt) (p : Pt) : Bool :=
  (ringEdges l).any fun e => onSegment e.1 e.2 p

/-- One edge-crossing test of the standard ray cast: the horizontal ray from
`p` to `+x` infinity crosses the open-above edge `(a, b)`. -/
def rayCrosses (p a b : Pt) : Bool :=
  (decide (a.y > p.y) != decide (b.y > p.y)) &&
  decide (p.x < a.x + (b.x - a.x) * (p.y - a.y) / (b.y - a.y))

/-- Inclusive point-in-polygon test over rational points: the point is on the
boundary, or the ray-crossing parity is odd (spec's containment algorithm,
matching shapely `intersects` for a point). -/
def ptContains (l : List Pt) (p : Pt) : Bool :=
  onBoundary l p || ((ringEdges l).countP (fun e => rayCrosses p e.1 e.2)) % 2 == 1

/-- The rational vertex ring of a shapely polygon, when every coordinate is
finite. -/
def toRing : SPolygon → Option (List Pt)
  | [] => some []
  | v :: vs =>
    match v.1.toQ?, v.2.toQ?, toRing vs with
    | some a, some b, some r => some (Pt.mk a b :: r)
    | _, _, _ => none

/-- shapely `polygon.intersects(Point(px, py))` as called by the script: a
predicate on a non-finite point (or a polygon with a non-finite vertex) is
false; on finite data it is the inclusive containment test. -/
def spolyIntersects (l : SPolygon) (px py : PyFloat) : Bool :=
  match px.toQ?, py.toQ?, toRing l with
  | some qx, some qy, some ring => ptContains ring (Pt.mk qx qy)
  | _, _, _ => false

/-! ## The configuration and the Boundary Builder

`filter_field_boundaries` reads
`cfg['field_boundaries'][i][corner]['latitude'|'longitude']` for `i = 0, 1`
and the four corners `NW_corner, NE_corner, SE_corner, SW_corner`, in that
order, building `Polygon [(lat, long), ...]` for `field_1` then `field_2`.
A missing dictionary key raises `KeyError`, an out-of-range list index
raises `IndexError`; neither is caught anywhere in the script. -/

/-- Uncaught Python exceptions the script can raise. -/
inductive PyError where
  | keyError
  | indexError
deriving DecidableEq, Repr

/-- A corner dictionary from `config.json`; a field is `none` when the key
is absent.  Values are Python floats (JSON numbers; Python `json` also
accepts `Infinity` and `NaN`). -/
structure Corner where
  latitude : Option PyFloat
  longitude : Option PyFloat
deriving DecidableEq, Repr

/-- One field-boundary descriptor: the four corner keys, `none` when absent. -/
structure Descriptor where
  NW_corner : Option Corner
  NE_corner : Option Corner
  SE_corner : Option Corner
  SW_corner : Option Corner
deriving DecidableEq, Repr

/-- The configuration as consumed by `filter_field_boundaries` (the
`csv_filepath` only locates the external row source, which we pass
separately as an abstract row list). -/
structure Config where
  field_boundaries : List Descriptor
deriving DecidableEq, Repr

/-- Dictionary lookup `d[k]`: `KeyError` when the key is absent. -/
def getKey {α : Type} (o : Option α) : Except PyError α :=
  match o with
  | some a => .ok a
  | none => .error .keyError

/-- List indexing `l[i]`: `IndexError` when out of range. -/
def getIndex {α : Type} (l : List α) (i : Nat) : Except PyError α :=
  match l[i]? with
  | some a => .ok a
  | none => .error .indexError

/-- The `(corner['latitude'], corner['longitude'])` pair for one corner key
of a descriptor, with the lookups in source order. -/
def cornerPair (o : Option Corner) : Except PyError (PyFloat × PyFloat) := do
  let c ← getKey o
  let la ← getKey c.latitude
  let lo ← getKey c.longitude
  return (la, lo)

/-- `Polygon([...])` for descriptor `d`: the vertex ring is exactly
`[NW, NE, SE, SW]`, each vertex the `(latitude, longitude)` pair.  shapely's
constructor does not validate finiteness or degeneracy. -/
def buildPoly (d : Descriptor) : Except PyError SPolygon := do
  let nw ← cornerPair d.NW_corner
  let ne ← cornerPair d.NE_corner
  let se ← cornerPair d.SE_corner
  let sw ← cornerPair d.SW_corner
  return [nw, ne, se, sw]

/-- The `geopandas.GeoSeries` built at the top of `filter_field_boundaries`:
`field_1` from `cfg['field_boundaries'][0]`, then `field_2` from
`cfg['field_boundaries'][1]`, in that evaluation order. -/
def buildFields (cfg : Config) : Except PyError (SPolygon × SPolygon) := do
  let d0 ← getIndex cfg.field_boundaries 0
  let p0 ← buildPoly d0
  let d1 ← getIndex cfg.field_boundaries 1
  let p1 ← buildPoly d1
  return (p0, p1)

/-! ## The row loop (Membership Filter) -/

/-- One raw CSV row as yielded by `df.iterrows()`: the three columns the
loop reads, `none` when the column is absent (pandas raises `KeyError`). -/
structure RawRow where
  lat : Option RawVal
  long : Option RawVal
  weight : Option RawVal
deriving DecidableEq, Repr

/-- The output record appended for an admitted row: the original `lat`,
`long` and `weight` values, passed through unchanged. -/
structure FilteredRecord where
  latitude : RawVal
  longitude : RawVal
  weight : RawVal
deriving DecidableEq, Repr

/-- The outcome of one loop iteration that did not raise an uncaught
exception: a record was appended, or the row was skipped with the
"Not a float" diagnostic printed, or the row was silently rejected. -/
inductive StepOut where
  | emit (r : FilteredRecord)
  | skip
  | reject
deriving DecidableEq, Repr

/-- One iteration of the row loop, mirroring Python evaluation order:
`row['lat']` (KeyError propagates), `float(...)` (ValueError caught: print
and continue), `row['long']`, `float(...)`, then the containment test, and
— only when the point is admitted — `row['weight']` inside the appended
dictionary. -/
def rowStep (f1 f2 : SPolygon) (row : RawRow) : Except PyError StepOut := do
  let latRaw ← getKey row.lat
  match parseFloat latRaw with
  | .error _ => return .skip
  | .ok latF => do
    let longRaw ← getKey row.long
    match parseFloat longRaw with
    | .error _ => return .skip
    | .ok longF =>
      if spolyIntersects f1 latF longF || spolyIntersects f2 latF longF then do
        let w ← getKey row.weight
        return .emit ⟨latRaw, longRaw, w⟩
      else
        return .reject

/-- The whole `for index, row in df.iterrows()` loop: the collected
`filtered_points` in source order together with the number of
"Not a float" diagnostics printed; an uncaught exception aborts the run,
losing the list. -/
def runRows (f1 f2 : SPolygon) : List RawRow → Except PyError (List FilteredRecord × Nat)
  | [] => .ok ([], 0)
  | row :: rest => do
    let o ← rowStep f1 f2 row
    let (recs, skips) ← runRows f1 f2 rest
    match o with
    | .emit r => return (r :: recs, skips)
    | .skip => return (recs, skips + 1)
    | .reject => return (recs, skips)

/-- `filter_field_boundaries(cfg)` with the CSV contents abstracted as the
row list `rows`: build the two polygons, then run the loop. -/
def filter_field_boundaries (cfg : Config) (rows : List RawRow) :
    Except PyError (List FilteredRecord × Nat) := do
  let (f1, f2) ← buildFields cfg
  runRows f1 f2 rows

/-! ## Helper lemmas about the containment test -/

/-- A point is on the closed segment from itself to any other point. -/
theorem onSegment_self (a b : Pt) : onSegment a b a = true := by
  simp [onSegment, sub_self, min_le_left, le_max_left]

/-- A vertex of the ring lies on the ring's boundary (it is an endpoint of
the edge leaving it). -/
theorem mem_onBoundary (l : List Pt) (p : Pt) (h : p ∈ l) :
    onBoundary l p = true := by
  obtain ⟨i, hi, hp⟩ := List.mem_iff_getElem.mp h
  have hiz : i < (ringEdges l).length := by
    simpa [ringEdges, List.length_zip, List.length_rotate] using hi
  apply List.any_eq_true.mpr
  refine ⟨(ringEdges l)[i], List.getElem_mem hiz, ?_⟩
  have hz : (ringEdges l)[i] =
      (l.get ⟨i, hi⟩, (l.rotate 1).get ⟨i, by rwa [List.length_rotate]⟩) := by
    simp [ringEdges, List.getElem_zip]
  rw [hz]
  have hp2 : l.get ⟨i, hi⟩ = p := hp
  simp only [hp2]
  exact onSegment_self p _

/-- A point on the ring boundary passes the inclusive containment test. -/
theorem onBoundary_ptContains {l : List Pt} {p : Pt}
    (h : onBoundary l p = true) : ptContains l p = true := by
  simp [ptContains, h]

/-- The spec's test square, as a rational ring and as the shapely polygon
the script would build from corners (0,0), (0,10), (10,10), (10,0). -/
def sqRing : List Pt := [⟨0, 0⟩, ⟨0, 10⟩, ⟨10, 10⟩, ⟨10, 0⟩]

/-- The same square at the `SPolygon` level (all coordinates finite). -/
def sqField : SPolygon :=
  [(.fin 0, .fin 0), (.fin 0, .fin 10), (.fin 10, .fin 10), (.fin 10, .fin 0)]

/-- C1: for the square with corners (0,0),(0,10),(10,10),(10,0) the
containment test called by the script classifies (5,5) as contained and
(15,15) as not contained, and (0,5) — on an edge — as contained; and for
every polygon ring, a point on an edge or coincident with a vertex is
classified as contained (inclusive boundary semantics). -/
theorem C1_containment (poly : List Pt) (p : Pt)
    (h : onBoundary poly p = true ∨ p ∈ poly) :
    ptContains poly p = true ∧
    spolyIntersects sqField (.fin 5) (.fin 5) = true ∧
    spolyIntersects sqField (.fin 15) (.fin 15) = false ∧
    spolyIntersects sqField (.fin 0) (.fin 5) = true := by
  refine ⟨?_, ?_, ?_, ?_⟩
  · rcases h with h | h
    · exact onBoundary_ptContains h
    · exact onBoundary_ptContains (mem_onBoundary _ _ h)
  · simp [spolyIntersects, sqField, toRing, PyFloat.toQ?, ptContains,
      onBoundary, onSegment, ringEdges, rayCrosses, List.rotate,
      List.countP, List.countP.go]
    norm_num
  · simp [spolyIntersects, sqField, toRing, PyFloat.toQ?, ptContains,
      onBoundary, onSegment, ringEdges, rayCrosses, List.rotate,
      List.countP, List.countP.go]
    norm_num
  · simp [spolyIntersects, sqField, toRing, PyFloat.toQ?, ptContains,
      onBoundary, onSegment, ringEdges, rayCrosses, List.rotate,
      List.countP, List.countP.go]
    norm_num

/-- C1 witness: the theorem applied to the test square at the edge point
(0,5). -/
theorem C1_containment_witness :
    ptContains sqRing ⟨0, 5⟩ = true ∧
    spolyIntersects sqField (.fin 5) (.fin 5) = true ∧
    spolyIntersects sqField (.fin 15) (.fin 15) = false ∧
    spolyIntersects sqField (.fin 0) (.fin 5) = true :=
  C1_containment sqRing ⟨0, 5⟩ (Or.inl (by
    simp [onBoundary, sqRing, ringEdges, List.rotate, onSegment]
    norm_num))

/-! ## Concrete containment facts about the test square (shared helpers) -/

/-- (5,5) intersects the test square. -/
theorem sq_hits_5_5 : spolyIntersects sqField (.fin 5) (.fin 5) = true := by
  simp [spolyIntersects, sqField, toRing, PyFloat.toQ?, ptContains,
    onBoundary, onSegment, ringEdges, rayCrosses, List.rotate,
    List.countP, List.countP.go]
  norm_num

/-- (15,15) does not intersect the test square. -/
theorem sq_misses_15_15 : spolyIntersects sqField (.fin 15) (.fin 15) = false := by
  simp [spolyIntersects, sqField, toRing, PyFloat.toQ?, ptContains,
    onBoundary, onSegment, ringEdges, rayCrosses, List.rotate,
    List.countP, List.countP.go]
  norm_num

/-- (0,5), on the west edge, intersects the test square. -/
theorem sq_hits_0_5 : spolyIntersects sqField (.fin 0) (.fin 5) = true := by
  simp [spolyIntersects, sqField, toRing, PyFloat.toQ?, ptContains,
    onBoundary, onSegment, ringEdges, rayCrosses, List.rotate,
    List.countP, List.countP.go]
  norm_num

/-- (1,1) intersects the test square. -/
theorem sq_hits_1_1 : spolyIntersects sqField (.fin 1) (.fin 1) = true := by
  simp [spolyIntersects, sqField, toRing, PyFloat.toQ?, ptContains,
    onBoundary, onSegment, ringEdges, rayCrosses, List.rotate,
    List.countP, List.countP.go]
  norm_num

/-! ## C4: order preservation -/

/-- The record a row contributes, if its loop iteration appends one. -/
def emittedRec (f1 f2 : SPolygon) (row : RawRow) : Option FilteredRecord :=
  match rowStep f1 f2 row with
  | .ok (.emit r) => some r
  | _ => none

/-- C4: on a run that completes, the collected records are exactly the
per-row emissions in source order — admitted rows appear in their original
relative order and skipped or rejected rows simply do not appear. -/
theorem C4_order_preservation (f1 f2 : SPolygon) (rows : List RawRow)
    (out : List FilteredRecord × Nat)
    (h : runRows f1 f2 rows = .ok out) :
    out.1 = rows.filterMap (emittedRec f1 f2) := by
  induction rows generalizing out with
  | nil =>
    simp [runRows] at h
    simp [← h]
  | cons row rest ih =>
    cases hstep : rowStep f1 f2 row with
    | error e => simp [runRows, hstep, bind, Except.bind] at h
    | ok o =>
      cases hrest : runRows f1 f2 rest with
      | error e => simp [runRows, hstep, hrest, bind, Except.bind] at h
      | ok pr =>
        have hr := ih pr hrest
        cases o with
        | emit r =>
          simp [runRows, hstep, hrest, bind, Except.bind, pure, Except.pure] at h
          simp [List.filterMap_cons, emittedRec, hstep, ← h, hr]
        | skip =>
          simp [runRows, hstep, hrest, bind, Except.bind, pure, Except.pure] at h
          simp [List.filterMap_cons, emittedRec, hstep, ← h, hr]
        | reject =>
          simp [runRows, hstep, hrest, bind, Except.bind, pure, Except.pure] at h
          simp [List.filterMap_cons, emittedRec, hstep, ← h, hr]

/-- A row at (5,5) with weight 2 — inside the test square. -/
def rowIn : RawRow := ⟨some (.val (.fin 5)), some (.val (.fin 5)), some (.val (.fin 2))⟩

/-- A row whose latitude cell does not parse as a float. -/
def rowBad : RawRow := ⟨some .notFloat, some (.val (.fin 1)), some (.val (.fin 3))⟩

/-- A row at (1,1) with weight 4 — inside the test square. -/
def rowIn2 : RawRow := ⟨some (.val (.fin 1)), some (.val (.fin 1)), some (.val (.fin 4))⟩

/-- The loop iteration on `rowIn` appends its record. -/
theorem rowStep_rowIn : rowStep sqField sqField rowIn =
    .ok (.emit ⟨.val (.fin 5), .val (.fin 5), .val (.fin 2)⟩) := by
  simp [rowStep, rowIn, getKey, parseFloat, sq_hits_5_5, bind, Except.bind,
    pure, Except.pure]

/-- The loop iteration on `rowBad` skips (prints "Not a float"). -/
theorem rowStep_rowBad : rowStep sqField sqField rowBad = .ok .skip := by
  simp [rowStep, rowBad, getKey, parseFloat, bind, Except.bind, pure, Except.pure]

/-- The loop iteration on `rowIn2` appends its record. -/
theorem rowStep_rowIn2 : rowStep sqField sqField rowIn2 =
    .ok (.emit ⟨.val (.fin 1), .val (.fin 1), .val (.fin 4)⟩) := by
  simp [rowStep, rowIn2, getKey, parseFloat, sq_hits_1_1, bind, Except.bind,
    pure, Except.pure]

/-- The three-row example run: both valid rows admitted, the bad row
skipped, one diagnostic printed. -/
theorem runRows_example : runRows sqField sqField [rowIn, rowBad, rowIn2] =
    .ok ([⟨.val (.fin 5), .val (.fin 5), .val (.fin 2)⟩,
          ⟨.val (.fin 1), .val (.fin 1), .val (.fin 4)⟩], 1) := by
  simp [runRows, rowStep_rowIn, rowStep_rowBad, rowStep_rowIn2, bind,
    Except.bind, pure, Except.pure]

/-- C4 witness: the theorem applied to the run [r1 admitted, r2 invalid,
r3 admitted], whose output is [record(r1), record(r3)] in that order. -/
theorem C4_order_preservation_witness :
    (([⟨.val (.fin 5), .val (.fin 5), .val (.fin 2)⟩,
       ⟨.val (.fin 1), .val (.fin 1), .val (.fin 4)⟩] : List FilteredRecord), 1).1 =
      [rowIn, rowBad, rowIn2].filterMap (emittedRec sqField sqField) :=
  C4_order_preservation sqField sqField [rowIn, rowBad, rowIn2] _ runRows_example

/-! ## C2: any-polygon union semantics, one emission per row -/

/-- C2: a row whose three columns are present and whose coordinates parse
is emitted exactly once when its point intersects at least one of the two
polygons, and not emitted otherwise — for every pair of polygons. -/
theorem C2_union_semantics (f1 f2 : SPolygon) (row : RawRow)
    (lv lov wv : RawVal) (lF loF : PyFloat)
    (hl : row.lat = some lv) (hlo : row.long = some lov)
    (hw : row.weight = some wv)
    (hpl : parseFloat lv = .ok lF) (hplo : parseFloat lov = .ok loF) :
    runRows f1 f2 [row] =
      .ok (if spolyIntersects f1 lF loF || spolyIntersects f2 lF loF
           then ([⟨lv, lov, wv⟩], 0) else ([], 0)) := by
  cases lv with
  | notFloat => simp [parseFloat] at hpl
  | val v =>
    cases lov with
    | notFloat => simp [parseFloat] at hplo
    | val w =>
      simp [parseFloat] at hpl hplo
      subst hpl hplo
      by_cases hc : spolyIntersects f1 v w = true ∨ spolyIntersects f2 v w = true
      · simp [runRows, rowStep, hl, hlo, hw, getKey, parseFloat, hc, bind,
          Except.bind, pure, Except.pure]
      · simp [runRows, rowStep, hl, hlo, hw, getKey, parseFloat, hc, bind,
          Except.bind, pure, Except.pure]

/-- A second test square, disjoint from the first (x and y from 100 to 110). -/
def sqFieldFar : SPolygon :=
  [(.fin 100, .fin 100), (.fin 100, .fin 110), (.fin 110, .fin 110),
   (.fin 110, .fin 100)]

/-- (5,5) does not intersect the far square. -/
theorem sqFar_misses_5_5 : spolyIntersects sqFieldFar (.fin 5) (.fin 5) = false := by
  simp [spolyIntersects, sqFieldFar, toRing, PyFloat.toQ?, ptContains,
    onBoundary, onSegment, ringEdges, rayCrosses, List.rotate,
    List.countP, List.countP.go]
  norm_num

/-- C2 witness: with disjoint polygons A (the test square) and B (the far
square), the row at (5,5) — inside A, outside B — is admitted exactly once. -/
theorem C2_union_semantics_witness :
    runRows sqField sqFieldFar [rowIn] =
      .ok ([⟨.val (.fin 5), .val (.fin 5), .val (.fin 2)⟩], 0) := by
  have h := C2_union_semantics sqField sqFieldFar rowIn
    (.val (.fin 5)) (.val (.fin 5)) (.val (.fin 2)) (.fin 5) (.fin 5)
    rfl rfl rfl rfl rfl
  rw [h, sq_hits_5_5]
  simp

/-! ## C3: per-row parse-failure tolerance -/

/-- A row whose latitude cell parses as `inf` (Python `float` accepts it). -/
def rowInf : RawRow := ⟨some (.val .inf), some (.val (.fin 5)), some (.val (.fin 1))⟩

/-- C3 counterexample: a latitude parseable only as an infinity is NOT
treated as a parse failure — `float("inf")` succeeds, so the row is neither
skipped nor reported (zero diagnostics), refuting the claim that such an
occurrence is reported. -/
theorem C3_counterexample : runRows sqField sqField [rowInf] = .ok ([], 0) := by
  simp [runRows, rowStep, rowInf, getKey, parseFloat, spolyIntersects,
    PyFloat.toQ?, bind, Except.bind, pure, Except.pure]

/-- C3 (amended): a row whose latitude cell raises `ValueError` in `float`
— or whose latitude parses and whose longitude cell raises `ValueError` —
is skipped with the diagnostic counted and every later row still processed
(the run on the remaining rows is unchanged except for the incremented
count); and a record is only ever emitted for a row both of whose
coordinate cells parsed as floats.  (Cells parsing as infinities or NaN
are not parse failures and are not reported.) -/
theorem C3_parse_failure_tolerance (f1 f2 : SPolygon) (row : RawRow)
    (rest : List RawRow)
    (h : row.lat = some .notFloat ∨
      (∃ lF, row.lat = some (.val lF) ∧ row.long = some .notFloat)) :
    runRows f1 f2 (row :: rest) =
      (runRows f1 f2 rest).map (fun out => (out.1, out.2 + 1)) ∧
    (∀ (r : RawRow) (rec : FilteredRecord), rowStep f1 f2 r = .ok (.emit rec) →
      ∃ lv lov lF loF, r.lat = some lv ∧ r.long = some lov ∧
        parseFloat lv = .ok lF ∧ parseFloat lov = .ok loF) := by
  constructor
  · rcases h with h | ⟨lF, hl, hlo⟩
    · cases hrest : runRows f1 f2 rest with
      | error e =>
        simp [runRows, rowStep, h, getKey, parseFloat, hrest, bind,
          Except.bind, pure, Except.pure, Except.map]
      | ok pr =>
        simp [runRows, rowStep, h, getKey, parseFloat, hrest, bind,
          Except.bind, pure, Except.pure, Except.map]
    · cases hrest : runRows f1 f2 rest with
      | error e =>
        simp [runRows, rowStep, hl, hlo, getKey, parseFloat, hrest, bind,
          Except.bind, pure, Except.pure, Except.map]
      | ok pr =>
        simp [runRows, rowStep, hl, hlo, getKey, parseFloat, hrest, bind,
          Except.bind, pure, Except.pure, Except.map]
  · intro r rec hr
    cases hl : r.lat with
    | none => simp [rowStep, hl, getKey, bind, Except.bind] at hr
    | some lv =>
      cases hpl : parseFloat lv with
      | error e =>
        simp [rowStep, hl, hpl, getKey, bind, Except.bind, pure,
          Except.pure] at hr
      | ok lF =>
        cases hlo : r.long with
        | none =>
          simp [rowStep, hl, hpl, hlo, getKey, bind, Except.bind, pure,
            Except.pure] at hr
        | some lov =>
          cases hplo : parseFloat lov with
          | error e =>
            simp [rowStep, hl, hpl, hlo, hplo, getKey, bind, Except.bind,
              pure, Except.pure] at hr
          | ok loF => exact ⟨lv, lov, lF, loF, rfl, rfl, hpl, hplo⟩

/-- A row whose latitude parses as 5 but whose longitude cell raises
`ValueError`. -/
def rowBadLong : RawRow :=
  ⟨some (.val (.fin 5)), some .notFloat, some (.val (.fin 3))⟩

/-- C3 witness: the amended theorem applied to a row with an unparseable
longitude followed by an admitted row — the bad row is counted and the
later row still processed. -/
theorem C3_parse_failure_tolerance_witness :
    runRows sqField sqField [rowBadLong, rowIn2] =
      (runRows sqField sqField [rowIn2]).map (fun out => (out.1, out.2 + 1)) :=
  (C3_parse_failure_tolerance sqField sqField rowBadLong [rowIn2]
    (Or.inr ⟨.fin 5, rfl, rfl⟩)).1

/-! ## C5: vertex order and axis convention -/

/-- The descriptor of the test square: each corner's (latitude, longitude)
gives the ring (0,0), (0,10), (10,10), (10,0). -/
def sqDescriptor : Descriptor :=
  ⟨some ⟨some (.fin 0), some (.fin 0)⟩, some ⟨some (.fin 0), some (.fin 10)⟩,
   some ⟨some (.fin 10), some (.fin 10)⟩, some ⟨some (.fin 10), some (.fin 0)⟩⟩

/-- C5: a descriptor whose corners are all present yields the polygon with
vertex ring exactly [NW, NE, SE, SW], each vertex (x, y) = (latitude,
longitude); and the filter builds its test point with the same convention —
a parseable row is tested (and admitted or rejected) exactly at
(parsed lat, parsed long) against each polygon. -/
theorem C5_axis_convention (d : Descriptor) (nw ne se sw : Corner)
    (a1 b1 a2 b2 a3 b3 a4 b4 : PyFloat)
    (h1 : d.NW_corner = some nw) (h2 : d.NE_corner = some ne)
    (h3 : d.SE_corner = some se) (h4 : d.SW_corner = some sw)
    (hnw1 : nw.latitude = some a1) (hnw2 : nw.longitude = some b1)
    (hne1 : ne.latitude = some a2) (hne2 : ne.longitude = some b2)
    (hse1 : se.latitude = some a3) (hse2 : se.longitude = some b3)
    (hsw1 : sw.latitude = some a4) (hsw2 : sw.longitude = some b4) :
    buildPoly d = .ok [(a1, b1), (a2, b2), (a3, b3), (a4, b4)] ∧
    (∀ (f1 f2 : SPolygon) (row : RawRow) (lv lov wv : RawVal) (lF loF : PyFloat),
      row.lat = some lv → parseFloat lv = .ok lF →
      row.long = some lov → parseFloat lov = .ok loF →
      row.weight = some wv →
      rowStep f1 f2 row =
        .ok (if spolyIntersects f1 lF loF || spolyIntersects f2 lF loF
             then .emit ⟨lv, lov, wv⟩ else .reject)) := by
  constructor
  · simp [buildPoly, cornerPair, h1, h2, h3, h4, hnw1, hnw2, hne1, hne2,
      hse1, hse2, hsw1, hsw2, getKey, bind, Except.bind, pure, Except.pure]
  · intro f1 f2 row lv lov wv lF loF hl hpl hlo hplo hw
    cases lv with
    | notFloat => simp [parseFloat] at hpl
    | val v =>
      cases lov with
      | notFloat => simp [parseFloat] at hplo
      | val w =>
        simp [parseFloat] at hpl hplo
        subst hpl hplo
        by_cases hc : spolyIntersects f1 v w = true ∨ spolyIntersects f2 v w = true
        · simp [rowStep, hl, hlo, hw, getKey, parseFloat, hc, bind,
            Except.bind, pure, Except.pure]
        · simp [rowStep, hl, hlo, hw, getKey, parseFloat, hc, bind,
            Except.bind, pure, Except.pure]

/-- C5 witness: the theorem applied to the square's descriptor — the built
ring is exactly the [NW, NE, SE, SW] (latitude, longitude) list. -/
theorem C5_axis_convention_witness : buildPoly sqDescriptor = .ok sqField :=
  (C5_axis_convention sqDescriptor _ _ _ _ _ _ _ _ _ _ _ _
    rfl rfl rfl rfl rfl rfl rfl rfl rfl rfl rfl rfl).1

/-! ## C9: only the first two descriptors matter -/

/-- C9: two configurations agreeing on descriptors 0 and 1 produce
identical results on every row list — descriptors at index 2 and beyond
are never read. -/
theorem C9_only_first_two (cfg1 cfg2 : Config) (rows : List RawRow)
    (h0 : cfg1.field_boundaries[0]? = cfg2.field_boundaries[0]?)
    (h1 : cfg1.field_boundaries[1]? = cfg2.field_boundaries[1]?) :
    filter_field_boundaries cfg1 rows = filter_field_boundaries cfg2 rows := by
  have hb : buildFields cfg1 = buildFields cfg2 := by
    simp [buildFields, getIndex, h0, h1]
  simp [filter_field_boundaries, hb]

/-- An entirely empty descriptor (every corner key absent). -/
def emptyDescriptor : Descriptor := ⟨none, none, none, none⟩

/-- C9 witness: appending a (malformed) third descriptor does not change
the run's result. -/
theorem C9_only_first_two_witness :
    filter_field_boundaries ⟨[sqDescriptor, sqDescriptor]⟩ [rowIn] =
      filter_field_boundaries ⟨[sqDescriptor, sqDescriptor, emptyDescriptor]⟩
        [rowIn] :=
  C9_only_first_two _ _ [rowIn] rfl rfl

/-! ## C6: build failure on malformed descriptors -/

/-- A descriptor missing a required corner, or with a corner missing its
latitude or longitude. -/
def descriptorMalformed (d : Descriptor) : Prop :=
  d.NW_corner = none ∨ d.NE_corner = none ∨ d.SE_corner = none ∨
  d.SW_corner = none ∨
  (∃ c, d.NW_corner = some c ∧ (c.latitude = none ∨ c.longitude = none)) ∨
  (∃ c, d.NE_corner = some c ∧ (c.latitude = none ∨ c.longitude = none)) ∨
  (∃ c, d.SE_corner = some c ∧ (c.latitude = none ∨ c.longitude = none)) ∨
  (∃ c, d.SW_corner = some c ∧ (c.latitude = none ∨ c.longitude = none))

/-- Building the polygon of a malformed descriptor raises `KeyError`. -/
theorem buildPoly_malformed (d : Descriptor) (h : descriptorMalformed d) :
    buildPoly d = .error .keyError := by
  obtain ⟨nw, ne, se, sw⟩ := d
  rcases nw with _ | ⟨nwla, nwlo⟩
  · simp [buildPoly, cornerPair, getKey, bind, Except.bind, pure, Except.pure]
  rcases nwla with _ | a1
  · simp [buildPoly, cornerPair, getKey, bind, Except.bind, pure, Except.pure]
  rcases nwlo with _ | b1
  · simp [buildPoly, cornerPair, getKey, bind, Except.bind, pure, Except.pure]
  rcases ne with _ | ⟨nela, nelo⟩
  · simp [buildPoly, cornerPair, getKey, bind, Except.bind, pure, Except.pure]
  rcases nela with _ | a2
  · simp [buildPoly, cornerPair, getKey, bind, Except.bind, pure, Except.pure]
  rcases nelo with _ | b2
  · simp [buildPoly, cornerPair, getKey, bind, Except.bind, pure, Except.pure]
  rcases se with _ | ⟨sela, selo⟩
  · simp [buildPoly, cornerPair, getKey, bind, Except.bind, pure, Except.pure]
  rcases sela with _ | a3
  · simp [buildPoly, cornerPair, getKey, bind, Except.bind, pure, Except.pure]
  rcases selo with _ | b3
  · simp [buildPoly, cornerPair, getKey, bind, Except.bind, pure, Except.pure]
  rcases sw with _ | ⟨swla, swlo⟩
  · simp [buildPoly, cornerPair, getKey, bind, Except.bind, pure, Except.pure]
  rcases swla with _ | a4
  · simp [buildPoly, cornerPair, getKey, bind, Except.bind, pure, Except.pure]
  rcases swlo with _ | b4
  · simp [buildPoly, cornerPair, getKey, bind, Except.bind, pure, Except.pure]
  simp [descriptorMalformed] at h

/-- The test square's descriptor with its NW latitude replaced by +inf
(Python `json` accepts `Infinity` as a number). -/
def infDescriptor : Descriptor :=
  ⟨some ⟨some .inf, some (.fin 0)⟩, some ⟨some (.fin 0), some (.fin 10)⟩,
   some ⟨some (.fin 10), some (.fin 10)⟩, some ⟨some (.fin 10), some (.fin 0)⟩⟩

/-- A configuration whose first descriptor holds a non-finite coordinate. -/
def cfgInf : Config := ⟨[infDescriptor, sqDescriptor]⟩

/-- C6 counterexample: a non-finite coordinate value does NOT fail the
build — the builder succeeds and produces a polygon containing the
infinity, refuting the claimed ConfigurationError for non-finite values. -/
theorem C6_counterexample :
    buildFields cfgInf =
      .ok ([(.inf, .fin 0), (.fin 0, .fin 10), (.fin 10, .fin 10),
            (.fin 10, .fin 0)], sqField) := rfl

/-- Building the polygon of a well-formed descriptor (all corners and both
coordinates of each present) succeeds. -/
theorem buildPoly_wellFormed (d : Descriptor) (h : ¬descriptorMalformed d) :
    ∃ p, buildPoly d = .ok p := by
  obtain ⟨nw, ne, se, sw⟩ := d
  rcases nw with _ | ⟨nwla, nwlo⟩
  · exact absurd (by simp [descriptorMalformed]) h
  rcases nwla with _ | a1
  · exact absurd (by simp [descriptorMalformed]) h
  rcases nwlo with _ | b1
  · exact absurd (by simp [descriptorMalformed]) h
  rcases ne with _ | ⟨nela, nelo⟩
  · exact absurd (by simp [descriptorMalformed]) h
  rcases nela with _ | a2
  · exact absurd (by simp [descriptorMalformed]) h
  rcases nelo with _ | b2
  · exact absurd (by simp [descriptorMalformed]) h
  rcases se with _ | ⟨sela, selo⟩
  · exact absurd (by simp [descriptorMalformed]) h
  rcases sela with _ | a3
  · exact absurd (by simp [descriptorMalformed]) h
  rcases selo with _ | b3
  · exact absurd (by simp [descriptorMalformed]) h
  rcases sw with _ | ⟨swla, swlo⟩
  · exact absurd (by simp [descriptorMalformed]) h
  rcases swla with _ | a4
  · exact absurd (by simp [descriptorMalformed]) h
  rcases swlo with _ | b4
  · exact absurd (by simp [descriptorMalformed]) h
  exact ⟨[(a1, b1), (a2, b2), (a3, b3), (a4, b4)], rfl⟩

/-- C6 (amended): if either of the two examined descriptors is missing a
required corner or a corner is missing latitude/longitude — the first, or
the second with the first well-formed — the build aborts with an uncaught
`KeyError` and no FieldSet is produced; non-finite coordinate values are
accepted silently, and descriptors past the first two are never
examined. -/
theorem C6_malformed_examined_descriptor (cfg : Config) (d : Descriptor)
    (hd : cfg.field_boundaries[0]? = some d ∨
      (∃ d0, cfg.field_boundaries[0]? = some d0 ∧ ¬descriptorMalformed d0 ∧
        cfg.field_boundaries[1]? = some d))
    (hm : descriptorMalformed d) :
    buildFields cfg = .error .keyError := by
  rcases hd with hd | ⟨d0, h0, hwf, h1⟩
  · simp [buildFields, getIndex, hd, buildPoly_malformed d hm, bind,
      Except.bind]
  · obtain ⟨p0, hp0⟩ := buildPoly_wellFormed d0 hwf
    simp [buildFields, getIndex, h0, h1, hp0, buildPoly_malformed d hm, bind,
      Except.bind, pure, Except.pure]

/-- C6 witness: the amended theorem applied to a configuration whose
second descriptor has no corners at all (the first is the well-formed
square). -/
theorem C6_malformed_examined_descriptor_witness :
    buildFields ⟨[sqDescriptor, emptyDescriptor]⟩ = .error .keyError :=
  C6_malformed_examined_descriptor _ emptyDescriptor
    (Or.inr ⟨sqDescriptor, rfl, by simp [descriptorMalformed, sqDescriptor],
      rfl⟩)
    (Or.inl rfl)

/-! ## C7: degenerate (collinear) boundary descriptors -/

/-- A descriptor whose four corners (0,0), (0,1), (0,2), (0,3) are
collinear — a zero-area "polygon". -/
def colDescriptor : Descriptor :=
  ⟨some ⟨some (.fin 0), some (.fin 0)⟩, some ⟨some (.fin 0), some (.fin 1)⟩,
   some ⟨some (.fin 0), some (.fin 2)⟩, some ⟨some (.fin 0), some (.fin 3)⟩⟩

/-- The zero-area polygon the script builds from `colDescriptor`. -/
def colField : SPolygon :=
  [(.fin 0, .fin 0), (.fin 0, .fin 1), (.fin 0, .fin 2), (.fin 0, .fin 3)]

/-- A configuration whose two descriptors are both collinear. -/
def cfgCol : Config := ⟨[colDescriptor, colDescriptor]⟩

/-- C7 counterexample: the build does NOT fail on the collinear (zero-area)
descriptor — no ConfigurationError or GeometryError is raised at Boundary
Builder time; the degenerate polygons are produced. -/
theorem C7_counterexample : buildFields cfgCol = .ok (colField, colField) := rfl

/-- The midpoint (0, 3/2) of the degenerate segment intersects the
zero-area polygon. -/
theorem col_hits_mid : spolyIntersects colField (.fin 0) (.fin (3/2)) = true := by
  simp [spolyIntersects, colField, toRing, PyFloat.toQ?, ptContains,
    onBoundary, onSegment, ringEdges, rayCrosses, List.rotate,
    List.countP, List.countP.go]
  norm_num

/-- C7 (amended): degenerate descriptors are not detected — the build
succeeds and the zero-area polygon reaches the containment test, silently
admitting points on its segment: the full pipeline emits a record for a
row lying on the degenerate boundary. -/
theorem C7_degenerate_silent_use :
    filter_field_boundaries cfgCol
      [⟨some (.val (.fin 0)), some (.val (.fin (3/2))), some (.val (.fin 7))⟩] =
      .ok ([⟨.val (.fin 0), .val (.fin (3/2)), .val (.fin 7)⟩], 0) := by
  have hb : buildFields cfgCol = .ok (colField, colField) := rfl
  simp [filter_field_boundaries, hb, runRows, rowStep, getKey, parseFloat,
    col_hits_mid, bind, Except.bind, pure, Except.pure]

/-! ## C8: zero configured polygons -/

/-- C8 counterexample: with zero field boundaries configured the run does
NOT yield an empty result — it aborts with an uncaught IndexError before
any row is examined, refuting the claimed N ≥ 0 tolerance. -/
theorem C8_counterexample :
    filter_field_boundaries ⟨[]⟩ [] = .error .indexError := rfl

/-- C8 (amended): a configuration with an empty `field_boundaries` list
makes the run abort with an uncaught IndexError while building `field_1`,
regardless of the row contents — the pipeline requires at least two
descriptors and never returns an empty result in this case. -/
theorem C8_empty_config_errors (cfg : Config) (rows : List RawRow)
    (h : cfg.field_boundaries = []) :
    filter_field_boundaries cfg rows = .error .indexError := by
  simp [filter_field_boundaries, buildFields, getIndex, h, bind, Except.bind]

/-- C8 witness: the amended theorem applied to the empty configuration and
a nonempty row list. -/
theorem C8_empty_config_errors_witness :
    filter_field_boundaries ⟨[]⟩ [rowIn] = .error .indexError :=
  C8_empty_config_errors ⟨[]⟩ [rowIn] rfl

/-! ## C10: rows with missing columns -/

/-- C10 counterexample: a row missing its `weight` column whose point lies
outside both polygons is processed WITHOUT aborting (weight is only read
when a record is appended), and the following row is still emitted —
refuting the claim that any missing-field row aborts the run. -/
theorem C10_counterexample :
    runRows sqField sqField
      [⟨some (.val (.fin 15)), some (.val (.fin 15)), none⟩, rowIn] =
      .ok ([⟨.val (.fin 5), .val (.fin 5), .val (.fin 2)⟩], 0) := by
  simp [runRows, rowStep, getKey, parseFloat, sq_misses_15_15,
    sq_hits_5_5, rowIn, bind, Except.bind, pure, Except.pure]

/-- C10 (amended): a row whose `lat` column is missing aborts the whole
run with an uncaught KeyError (no subsequent row is processed); so does a
row whose `lat` parses but whose `long` column is missing; a row missing
`weight` aborts only when the row is admitted, since `weight` is read only
inside the appended record. -/
theorem C10_missing_field_abort :
    (∀ (f1 f2 : SPolygon) (row : RawRow) (rest : List RawRow),
      row.lat = none → runRows f1 f2 (row :: rest) = .error .keyError) ∧
    (∀ (f1 f2 : SPolygon) (row : RawRow) (rest : List RawRow)
      (lv : RawVal) (lF : PyFloat),
      row.lat = some lv → parseFloat lv = .ok lF →
      row.long = none → runRows f1 f2 (row :: rest) = .error .keyError) ∧
    (∀ (f1 f2 : SPolygon) (row : RawRow) (rest : List RawRow)
      (lv lov : RawVal) (lF loF : PyFloat),
      row.lat = some lv → parseFloat lv = .ok lF →
      row.long = some lov → parseFloat lov = .ok loF →
      row.weight = none →
      (spolyIntersects f1 lF loF || spolyIntersects f2 lF loF) = true →
      runRows f1 f2 (row :: rest) = .error .keyError) := by
  refine ⟨?_, ?_, ?_⟩
  · intro f1 f2 row rest h
    simp [runRows, rowStep, h, getKey, bind, Except.bind]
  · intro f1 f2 row rest lv lF hl hpl hlo
    cases lv with
    | notFloat => simp [parseFloat] at hpl
    | val v =>
      simp [runRows, rowStep, hl, hlo, getKey, parseFloat, bind,
        Except.bind, pure, Except.pure]
  · intro f1 f2 row rest lv lov lF loF hl hpl hlo hplo hw hc
    cases lv with
    | notFloat => simp [parseFloat] at hpl
    | val v =>
      cases lov with
      | notFloat => simp [parseFloat] at hplo
      | val w =>
        simp [parseFloat] at hpl hplo
        subst hpl hplo
        simp [runRows, rowStep, hl, hlo, hw, getKey, parseFloat, hc, bind,
          Except.bind, pure, Except.pure]

/-- C10 witness: the amended theorem applied to a row whose `lat` parses
but whose `long` column is missing — the run aborts with KeyError. -/
theorem C10_missing_field_abort_witness :
    runRows sqField sqField
      [⟨some (.val (.fin 5)), none, some (.val (.fin 5))⟩] = .error .keyError :=
  C10_missing_field_abort.2.1 sqField sqField
    ⟨some (.val (.fin 5)), none, some (.val (.fin 5))⟩ []
    (.val (.fin 5)) (.fin 5) rfl rfl rfl
